import Mathlib

/-!
Verification of the draf/SEMDR orchestration core against its specification.

The development shallowly embeds the time-window management of
`draf/core/datetime_handler.py` (class `DateTimeHandler`), the scenario
management of `draf/core/case_study.py` (class `CaseStudy`: `__init__`,
`add_scen`, `add_scens`, `set_time_horizon`), and the small amount of store
behaviour those methods rely on.

Timestamps: `hp.make_datetimeindex(year, freq)` (helper not in the embedded
sources) produces the full-year datetime index, an ordered sequence of
pairwise-distinct increasing timestamps whose length is the number of periods
per year at the configured frequency.  The embedding represents the index as
`List.range size`, i.e. timestamp `k` stands for the `k`-th period of the
year; only the length and the distinctness of the entries matter to any of
the verified properties.

Python `int` is modelled as `Int`; Python sequence indexing and slicing
(including negative indices) are modelled by `pyGet?` and `pySlice` below;
a raised exception is modelled as the `Except.error` case.
-/

/-- Python indexing `l[i]` with negative-index wrap-around: `none` models an
`IndexError`. -/
def pyGet? {α : Type} (l : List α) (i : Int) : Option α :=
  let j : Int := if i < 0 then i + l.length else i
  if j < 0 then none else l[j.toNat]?

/-- Resolution of one slice bound, Python style: negative bounds count from
the end, and the result is clamped into `[0, len]`. -/
def pySliceBound (len : Nat) (i : Int) : Nat :=
  let j : Int := if i < 0 then i + len else i
  if j < 0 then 0 else min j.toNat len

/-- Python slicing `l[a:b]` (step 1). -/
def pySlice {α : Type} (l : List α) (a b : Int) : List α :=
  (l.take (pySliceBound l.length b)).drop (pySliceBound l.length a)

/-- Success test for the embedded exception monad. -/
def isOkE {α : Type} : Except String α → Bool
  | .ok _ => true
  | .error _ => false

/-- Failure test for the embedded exception monad. -/
def isErrE {α : Type} : Except String α → Bool
  | .ok _ => false
  | .error _ => true

/-- Modelled from the spec: `draf.helper.int_from_freq` (helper module not
under the embedded sources).  The spec enumerates the admissible frequencies
as the {1, 5, 15, 30, 60}-minute steps; the helper returns the number of
minutes of one step. -/
def int_from_freq (freq : String) : Nat :=
  if freq = "1min" then 1
  else if freq = "5min" then 5
  else if freq = "15min" then 15
  else if freq = "30min" then 30
  else if freq = "60min" then 60
  else 0

def isLeapYear (y : Nat) : Bool :=
  (y % 4 = 0 && y % 100 ≠ 0) || y % 400 = 0

/-- Modelled from the spec: the length of `hp.make_datetimeindex(year, freq)`
is the number of periods per year at the configured frequency (spec §3,
TimeWindow: "length = periods/year at configured frequency"). -/
def periodsInYear (year : Nat) (freq : String) : Nat :=
  (if isLeapYear year then 366 else 365) * 24 * 60 / int_from_freq freq

/-- State of `DateTimeHandler` (datetime_handler.py): the full-year index
(kept as its length `size`; the index itself is `List.range size`), the
active window `[_t1, _t2]` and the sliced custom index `dtindex_custom`. -/
structure DTState where
  year : Nat
  freq : String
  size : Nat
  t1 : Int
  t2 : Int
  dtindex_custom : List Nat
deriving DecidableEq, Repr

/-- The full-year datetime index `self.dtindex`. -/
def DTState.dtindex (st : DTState) : List Nat :=
  List.range st.size

def valid_freqs : List String :=
  ["1min", "5min", "15min", "30min", "60min"]

/-- `DateTimeHandler._set_dtindex` (datetime_handler.py lines 69-82):
validates the year and the frequency, then installs the full-year index with
`_t1 = 0`, `_t2 = size - 1`.  A failed `assert` is the error case. -/
def set_dtindex (year : Nat) (freq : String) : Except String DTState :=
  if ¬ (1980 ≤ year ∧ year < 2100) then
    .error "AssertionError: year"
  else if freq ∉ valid_freqs then
    .error "AssertionError: Frequency must be one of the valid frequencies"
  else
    let n := periodsInYear year freq
    .ok { year := year, freq := freq, size := n, t1 := 0, t2 := (n : Int) - 1,
          dtindex_custom := List.range n }

/-- `DateTimeHandler._get_integer_locations` (datetime_handler.py lines
101-112).  `start` is taken as an already-resolved integer location (the
date-substring form is resolved by the external pandas `get_loc` before the
arithmetic modelled here); `stop` models the parameter named `end`. -/
def get_integer_locations (st : DTState) (start : Int) (steps stop : Option Int) :
    Except String (Int × Int) :=
  let t1 := start
  match steps, stop with
  | some s, none =>
      if t1 + s < (st.size : Int) then .ok (t1, t1 + s - 1)
      else .error "Too many steps are given."
  | none, some e => .ok (t1, e)
  | none, none => .ok (t1, (st.size : Int) - 1)
  | some _, some _ => .error "One of steps or end must be given."

/-- `CaseStudy.set_time_horizon` (case_study.py lines 405-424) acting on the
`DateTimeHandler` state: resolve `(t1, t2)`, slice
`dtindex_custom = dtindex[t1 : t2+1]`, then assert
`dtindex_custom[0] == dtindex[t1]` and `dtindex_custom[-1] == dtindex[t2]`
(an out-of-range access inside the asserts is an `IndexError`). -/
def set_time_horizon (st : DTState) (start : Int) (steps stop : Option Int) :
    Except String DTState :=
  match get_integer_locations st start steps stop with
  | .error e => .error e
  | .ok (t1, t2) =>
    let custom := pySlice st.dtindex t1 (t2 + 1)
    match pyGet? custom 0, pyGet? st.dtindex t1 with
    | some c0, some d1 =>
      if c0 = d1 then
        match pyGet? custom (-1), pyGet? st.dtindex t2 with
        | some cl, some d2 =>
          if cl = d2 then
            .ok { st with dtindex_custom := custom, t1 := t1, t2 := t2 }
          else .error "AssertionError"
        | _, _ => .error "IndexError"
      else .error "AssertionError"
    | _, _ => .error "IndexError"

/-- `DateTimeHandler.set_rolling_horizon` (datetime_handler.py lines
125-137).  The returned `Bool` records whether the `logger.warning` branch
("Horizon exceeds available data, using full year") was taken. -/
def set_rolling_horizon (st : DTState) (horizon_hours : Nat) : DTState × Bool :=
  let steps_ahead := horizon_hours * 60 / int_from_freq st.freq
  let clamped := if steps_ahead > st.size then st.size - 1 else steps_ahead
  let warned := steps_ahead > st.size
  let t2 : Int := min (st.t1 + (clamped : Int) - 1) ((st.size : Int) - 1)
  ({ st with t2 := t2, dtindex_custom := pySlice st.dtindex st.t1 (t2 + 1) }, warned)

/-- The `DateTimeHandler` state of a freshly constructed
`CaseStudy(year=2019, freq="60min")`: 8760 hourly steps. -/
def dtAfterInit : DTState :=
  { year := 2019, freq := "60min", size := 8760, t1 := 0, t2 := 8759,
    dtindex_custom := List.range 8760 }

/-! Scenario model.

`draf/core/scenario.py` and `draf/core/entity_stores.py` are not among the
embedded sources; only the operations `case_study.py` performs on scenarios
are modelled, following the spec (§3 Scenario, §4.2 CollectorRegistry,
§4.4 Scenario) where the code is missing.  A collector contribution is a
Python lambda; only its presence and identity matter here, so contributions
are opaque tokens (`Nat`). -/

/-- A parameter / sweep value: draf entity values are numbers or names of
other entities (strings); the numeric payload is modelled as `Int` (no claim
involves floating-point arithmetic). -/
inductive PVal
  | i : Int → PVal
  | s : String → PVal
deriving DecidableEq, Repr

/-- Modelled from the spec: the lower/upper-bound slots of one entry of the
variable meta-store `sc.vars._meta` (entity_stores.py, not under the
embedded sources), which `add_scens` fixes to turn a variable into a
constant. -/
structure VarMeta where
  lb : PVal
  ub : PVal
deriving DecidableEq, Repr

/-- One scenario (spec §3): id, name, doc, parameter store, variable
meta-store and variable data, collectors (name ↦ contributor-id ↦ opaque
contribution), and `res` (present only after a successful solve; result
payload modelled as named integers). -/
structure Scenario where
  id : String
  name : String
  doc : String
  params : List (String × PVal)
  varsMeta : List (String × VarMeta)
  varsData : List (String × PVal)
  collectors : List (String × List (String × Nat))
  res : Option (List (String × Int))
deriving DecidableEq, Repr

/-- Association-list lookup (Python attribute / dict access). -/
def alookup {α : Type} : List (String × α) → String → Option α
  | [], _ => none
  | (k, v) :: t, key => if k = key then some v else alookup t key

/-- Association-list in-place overwrite: replaces the value stored at `key`
if present, leaves the list unchanged otherwise (order preserved, models
mutating an object already held in a Python container). -/
def aupdate {α : Type} : List (String × α) → String → α → List (String × α)
  | [], _, _ => []
  | (k, v) :: t, key, w =>
      if k = key then (k, w) :: t else (k, v) :: aupdate t key w

/-- Association-list deletion (`delattr`). -/
def aremove {α : Type} : List (String × α) → String → List (String × α)
  | [], _ => []
  | (k, v) :: t, key => if k = key then t else (k, v) :: aremove t key

/-- Modelled from the spec: adding a scenario to the `Scenarios` store
(entity_stores.py, not under the embedded sources).  Spec §4.5 `addScen`:
"Fails with `DuplicateIdError` if `id` already present"; insertion order is
creation order (spec §3 CaseStudy). -/
def scensAdd (store : List (String × Scenario)) (id : String) (sc : Scenario) :
    Except String (List (String × Scenario)) :=
  match alookup store id with
  | some _ => .error "DuplicateIdError"
  | none => .ok (store ++ [(id, sc)])

/-- The in-place collector clearing `add_scen` performs on an
already-optimized base scenario (case_study.py lines 271-274:
`for k, v in base_sc.collectors.get_all().items(): v.clear()`). -/
def Scenario.clearAllCollectors (sc : Scenario) : Scenario :=
  { sc with collectors := sc.collectors.map (fun p => (p.1, [])) }

/-- Modelled from the spec: `Scenario.update_params` (scenario.py, not under
the embedded sources).  Spec §4.4: a key naming a declared variable becomes a
simultaneous lower/upper bound fix; a key naming a parameter overwrites its
value; any other key fails with `UnknownEntityError`. -/
def Scenario.update_params (sc : Scenario) (key : String) (v : PVal) :
    Except String Scenario :=
  match alookup sc.varsMeta key with
  | some _ => .ok { sc with varsMeta := aupdate sc.varsMeta key { lb := v, ub := v } }
  | none =>
    match alookup sc.params key with
    | some _ => .ok { sc with params := aupdate sc.params key v }
    | none => .error "UnknownEntityError"

/-- Modelled from the spec: `Scenario.get_entity` resolves an entity name to
its stored value (scenario.py, not under the embedded sources); used by
`add_scens` when a sweep value is a string naming another entity. -/
def Scenario.get_entity (sc : Scenario) (key : String) : Except String PVal :=
  match alookup sc.params key with
  | some v => .ok v
  | none =>
    match alookup sc.varsData key with
    | some v => .ok v
    | none => .error "KeyError"

/-- A pandas `DataFrame` as `add_scens` uses it: row labels (`index`),
column labels (`columns`) and the rows of the data block, aligned with
`index`. -/
structure CSTable where
  index : List String
  columns : List String
  data : List (List PVal)
deriving DecidableEq, Repr

/-- The full `CaseStudy` state (case_study.py).  The plotting helper and the
geographic coordinates (floating point, plotting out of scope per the spec)
are omitted. -/
structure CaseStudy extends DTState where
  name : String
  doc : String
  country : String
  consider_invest : Bool
  obj_vars : List String
  mdl_language : String
  scens : List (String × Scenario)
  scen_vars : Option (List (String × String × List PVal))
  scen_df : Option CSTable
deriving DecidableEq, Repr

/-- `CaseStudy.__init__` (case_study.py lines 71-97): asserts the frequency
against the enumerated valid set, then `_set_dtindex` (which re-checks the
frequency and validates the year), then installs the remaining fields and an
empty scenario store.  A failed assert is the error case, so on error no
`CaseStudy` state exists. -/
def CaseStudy.init (name : String) (year : Nat) (freq : String) (country : String)
    (consider_invest : Bool) (doc : String) (obj_vars : List String)
    (mdl_language : String) : Except String CaseStudy :=
  if freq ∉ valid_freqs then
    .error "AssertionError: Frequency must be one of the valid frequencies"
  else
    match set_dtindex year freq with
    | .error e => .error e
    | .ok dt =>
      .ok { toDTState := dt, name := name, doc := doc, country := country,
            consider_invest := consider_invest, obj_vars := obj_vars,
            mdl_language := mdl_language, scens := [], scen_vars := none,
            scen_df := none }

/-- The in-place collector clearing `add_scen` applies to a base scenario
that carries results (case_study.py lines 271-274: `for k, v in
base_sc.collectors.get_all().items(): v.clear()`). -/
def clearIfSolved (sc : Scenario) : Scenario :=
  if sc.res.isSome then sc.clearAllCollectors else sc

/-- The scenario `add_scen`'s derivation branch stores under the new id
(case_study.py lines 276-286): the value copy (`_special_copy`; spec §5:
"derivation is a value copy") of the already collector-cleared base, with
`res` deleted and the variable data dropped (`sc.vars.delete_all()`) when
the base was solved, then re-labelled with the new id/name/doc. -/
def deriveCopy (base : Scenario) (id nm dc : String) : Scenario :=
  let b := clearIfSolved base
  let sc := if b.res.isSome then { b with res := none, varsData := [] } else b
  { sc with id := id, name := nm, doc := dc }

/-- `CaseStudy.add_scen` (case_study.py lines 215-289).  `built` stands for
the payload of the `components`/`custom_model` arguments: the from-scratch
branch (`based_on=None`) hands them to the `Scenario` constructor
(scenario.py, not under the embedded sources), so the scenario it would
build is taken as the argument itself; supplying it together with a non-null
`based_on` raises `RuntimeError` exactly as in the source (line 266-267).
The derivation branch follows the source line by line: resolve the base
(`getattr`, `AttributeError` if absent), clear the base's collectors in
place when the base carries `res`, value-copy it (`_special_copy`; spec §5:
"derivation is a value copy"), drop `res` and the variable data on the copy,
re-label it, and finally store it under `id` (duplicate ids rejected by the
store, see `scensAdd`).  `based_on_last` only rewires `based_on` to the most
recent id before this logic and is not modelled separately. -/
def add_scen (cs : CaseStudy) (idArg : Option String) (nameArg docArg : String)
    (based_on : Option String) (built : Option Scenario) :
    Except String CaseStudy :=
  let id := match idArg with
    | some i => i
    | none => "sc" ++ toString cs.scens.length
  match based_on with
  | none =>
    let sc0 := match built with
      | some b => b
      | none =>
        { id := id, name := nameArg, doc := docArg, params := [], varsMeta := [],
          varsData := [], collectors := [], res := none }
    let sc := { sc0 with id := id, name := nameArg, doc := docArg }
    match scensAdd cs.scens id sc with
    | .error e => .error e
    | .ok scens2 => .ok { cs with scens := scens2 }
  | some b =>
    match built with
    | some _ => .error "RuntimeError: Components can only be set if based_on is None"
    | none =>
      match alookup cs.scens b with
      | none => .error "AttributeError"
      | some base_sc =>
        match scensAdd (aupdate cs.scens b (clearIfSolved base_sc)) id
            (deriveCopy base_sc id nameArg docArg) with
        | .error e => .error e
        | .ok scens2 => .ok { cs with scens := scens2 }

/-- String rendering of a sweep value (`str(value)` /
`df.T.astype(str)`). -/
def pvalStr : PVal → String
  | .i n => toString n
  | .s s => s

/-- The row set of `pd.MultiIndex.from_product(value_lists)`: cartesian
product with the first list outermost. -/
def cartProd : List (List PVal) → List (List PVal)
  | [] => [[]]
  | l :: ls => l.flatMap (fun v => (cartProd ls).map (fun r => v :: r))

def isIdentChar (c : Char) : Bool :=
  c.isAlphanum || c = '_'

/-- Python `str.isidentifier` for the ASCII names produced by
`add_scens`. -/
def isIdentifier (s : String) : Bool :=
  match s.toList with
  | [] => false
  | c :: cs => (c.isAlpha || c = '_') && cs.all isIdentChar

/-- In-place update of one stored scenario (Python mutates the scenario
object it has just added to the store; the store entry is the same
object). -/
def modifyScen (cs : CaseStudy) (id : String) (f : Scenario → Except String Scenario) :
    Except String CaseStudy :=
  match alookup cs.scens id with
  | none => .error "AttributeError"
  | some sc =>
    match f sc with
    | .error e => .error e
    | .ok sc2 => .ok { cs with scens := aupdate cs.scens id sc2 }

/-- The per-combination body of the `add_scens` loop (case_study.py lines
343-361): derive one scenario from the base, reset `t__params_`, then for
each swept entity either fix the variable bounds (`sc.vars._meta`) or
overwrite the parameter; a string value is first resolved via
`get_entity`. -/
def applyScenVarRow (names_long : List String) (based_on : String)
    (cs : CaseStudy) (p : String × List PVal) : Except String CaseStudy :=
  let sc_name := p.1
  let row := p.2
  let ser := names_long.zip row
  let long_doc := String.intercalate "; "
    (ser.map (fun q => q.1 ++ "=" ++ pvalStr q.2))
  let scen_id := if isIdentifier sc_name then sc_name
    else "sc" ++ toString cs.scens.length
  match add_scen cs (some scen_id) sc_name long_doc (some based_on) none with
  | .error e => .error e
  | .ok cs2 =>
    modifyScen cs2 scen_id (fun sc =>
      match sc.update_params "t__params_" (PVal.i 0) with
      | .error e => .error e
      | .ok sc =>
        ser.foldlM (fun (sc : Scenario) (q : String × PVal) =>
          match (match q.2 with
                 | PVal.s vs => sc.get_entity vs
                 | v => .ok v : Except String PVal) with
          | .error e => .error e
          | .ok value =>
            match alookup sc.varsMeta q.1 with
            | some _ =>
              .ok { sc with varsMeta := aupdate sc.varsMeta q.1 { lb := value, ub := value } }
            | none => sc.update_params q.1 value) sc)

/-- `CaseStudy.add_scens` (case_study.py lines 291-366) at
`nParetoPoints=0` (the pareto branch appends a floating-point `linspace`
sweep which no claim exercises).  Builds the cartesian product of the listed
variations, derives the scenario names from short-name + value tokens joined
with an underscore, stores `scen_vars` and the transposed sweep table
`scen_df = df.T` (rows = the swept entity names, columns = the generated
scenario names), then derives and updates one scenario per combination;
finally removes the base when `remove_base` is set. -/
def add_scens (cs : CaseStudy) (scen_vars : List (String × String × List PVal))
    (remove_base : Bool) (based_on : String) : Except String CaseStudy :=
  let names_long := scen_vars.map (fun v => v.1)
  let names_short := scen_vars.map (fun v => v.2.1)
  let value_lists := scen_vars.map (fun v => v.2.2)
  let rows := cartProd value_lists
  let scNames := rows.map (fun r =>
    String.intercalate "_" ((names_short.zip r).map (fun q => q.1 ++ pvalStr q.2)))
  let df_T : CSTable :=
    { index := names_long, columns := scNames, data := rows.transpose }
  let cs := { cs with scen_vars := some scen_vars, scen_df := some df_T }
  match (scNames.zip rows).foldlM (applyScenVarRow names_long based_on) cs with
  | .error e => .error e
  | .ok cs2 =>
    if remove_base then .ok { cs2 with scens := aremove cs2.scens based_on }
    else .ok cs2


/-! Concrete states used by witnesses and counterexamples. -/

/-- A small `DateTimeHandler` state (10 steps) exercising the window logic;
the window theorems are proved for every state, so witnesses may use a small
index. -/
def dtW : DTState :=
  { year := 2019, freq := "60min", size := 10, t1 := 0, t2 := 9,
    dtindex_custom := List.range 10 }

/-- A reference scenario carrying solved results, populated collectors and
variable data: the shape of a base scenario after a successful solve. -/
def refScenSolved : Scenario :=
  { id := "REF", name := "REF", doc := "Reference scenario",
    params := [("t__params_", PVal.i 1), ("P_PV_CAPx_", PVal.i 100)],
    varsMeta := [("C_TOT_", { lb := PVal.i 0, ub := PVal.i 0 })],
    varsData := [("C_TOT_", PVal.i 777)],
    collectors := [("P_EG_sell_T", [("PV", 3), ("BES", 4)]), ("C_TOT_op_", [("EG", 7)])],
    res := some [("C_TOT_", 1234), ("CE_TOT_", 567)] }

/-- A case study whose only scenario is the solved reference scenario. -/
def solvedCS : CaseStudy :=
  { toDTState := dtW, name := "test", doc := "No doc available.", country := "DE",
    consider_invest := false, obj_vars := ["C_TOT_", "CE_TOT_"], mdl_language := "gp",
    scens := [("REF", refScenSolved)], scen_vars := none, scen_df := none }

/-- An unsolved reference scenario declaring the two swept parameters and the
bookkeeping parameter `t__params_` that `add_scens` resets. -/
def refScenSweep : Scenario :=
  { id := "REF", name := "REF", doc := "Reference scenario",
    params := [("t__params_", PVal.i 1), ("X", PVal.i 0), ("Y", PVal.i 0)],
    varsMeta := [], varsData := [], collectors := [("P_EG_sell_T", [])],
    res := none }

/-- A case study ready for the sweep of claim C4. -/
def sweepCS : CaseStudy :=
  { toDTState := dtW, name := "test", doc := "No doc available.", country := "DE",
    consider_invest := false, obj_vars := ["C_TOT_", "CE_TOT_"], mdl_language := "gp",
    scens := [("REF", refScenSweep)], scen_vars := none, scen_df := none }

/-- The sweep specification of claim C4. -/
def sweepVars : List (String × String × List PVal) :=
  [("X", "x", [PVal.i 1, PVal.i 2]), ("Y", "y", [PVal.i 10, PVal.i 20])]

/-- The window state reached from `dtW` by `set_time_horizon(start=2)` with
neither `steps` nor `end`. -/
def dtW3 : DTState :=
  { year := 2019, freq := "60min", size := 10, t1 := 2, t2 := 9,
    dtindex_custom := [2, 3, 4, 5, 6, 7, 8, 9] }

/-- The window state reached from `dtW` by
`set_time_horizon(start=2, steps=3)`. -/
def dtW4 : DTState :=
  { year := 2019, freq := "60min", size := 10, t1 := 2, t2 := 4,
    dtindex_custom := [2, 3, 4] }

/-- The window state reached from `dtW` by
`set_time_horizon(start=1, end=6)`. -/
def dtW5 : DTState :=
  { year := 2019, freq := "60min", size := 10, t1 := 1, t2 := 6,
    dtindex_custom := [1, 2, 3, 4, 5, 6] }

/-! Supporting lemmas. -/

theorem dtindex_def (st : DTState) : st.dtindex = List.range st.size := rfl

theorem pyGet?_nonneg {α : Type} (l : List α) (i : Int) (h : 0 ≤ i) :
    pyGet? l i = l[i.toNat]? := by
  simp only [pyGet?]
  rw [if_neg (by omega : ¬ i < 0), if_neg (by omega : ¬ i < 0)]

theorem pyGet?_neg_one {α : Type} (l : List α) (h : l.length ≠ 0) :
    pyGet? l (-1) = l[l.length - 1]? := by
  simp only [pyGet?]
  rw [if_pos (by omega : (-1 : Int) < 0),
      if_neg (by omega : ¬ (-1 : Int) + l.length < 0)]
  congr 1
  omega

theorem pySliceBound_nonneg (len : Nat) (i : Int) (h : 0 ≤ i) :
    pySliceBound len i = min i.toNat len := by
  simp only [pySliceBound]
  rw [if_neg (by omega : ¬ i < 0), if_neg (by omega : ¬ i < 0)]

theorem pySliceBound_le (len : Nat) (i : Int) : pySliceBound len i ≤ len := by
  simp only [pySliceBound]
  split <;> first
    | omega
    | (split <;> omega)

theorem length_pySlice {α : Type} (l : List α) (a b : Int) :
    (pySlice l a b).length = pySliceBound l.length b - pySliceBound l.length a := by
  have hb := pySliceBound_le l.length b
  simp only [pySlice, List.length_drop, List.length_take]
  omega

theorem getElem?_pySlice {α : Type} (l : List α) (a b : Int) (k : Nat)
    (h : pySliceBound l.length a + k < pySliceBound l.length b) :
    (pySlice l a b)[k]? = l[pySliceBound l.length a + k]? := by
  simp only [pySlice]
  rw [List.getElem?_drop, List.getElem?_take, if_pos h]

theorem pySlice_range_get (n : Nat) (a b : Int) (k : Nat)
    (h : pySliceBound n a + k < pySliceBound n b) :
    (pySlice (List.range n) a b)[k]? = some (pySliceBound n a + k) := by
  have hlen : (List.range n).length = n := List.length_range n
  have h2 : pySliceBound n a + k < n := lt_of_lt_of_le h (pySliceBound_le n b)
  rw [show (pySlice (List.range n) a b)[k]? =
        (List.range n)[pySliceBound n a + k]? by
      have := getElem?_pySlice (List.range n) a b k (by rw [hlen]; exact h)
      rw [hlen] at this
      exact this]
  exact List.getElem?_range h2

theorem alookup_append {α : Type} (l1 l2 : List (String × α)) (k : String) :
    alookup (l1 ++ l2) k =
      match alookup l1 k with
      | some v => some v
      | none => alookup l2 k := by
  induction l1 with
  | nil => simp [alookup]
  | cons p t ih =>
    obtain ⟨a, b⟩ := p
    by_cases h : a = k
    · simp [alookup, h]
    · simp only [List.cons_append, alookup, if_neg h]
      exact ih

theorem alookup_aupdate {α : Type} (l : List (String × α)) (k k2 : String) (v : α) :
    alookup (aupdate l k v) k2 =
      if k2 = k then (alookup l k).map (fun _ => v) else alookup l k2 := by
  induction l with
  | nil =>
    simp only [aupdate, alookup]
    split <;> rfl
  | cons p t ih =>
    obtain ⟨a, b⟩ := p
    by_cases h1 : a = k
    · subst h1
      by_cases h2 : k2 = a
      · subst h2
        simp [aupdate, alookup]
      · have h2x : ¬ a = k2 := fun h => h2 h.symm
        simp [aupdate, alookup, h2, h2x]
    · by_cases h2 : a = k2
      · subst h2
        have h3 : ¬ a = k := h1
        have h3x : (a = k) = False := eq_false h3
        simp [aupdate, alookup, h1, h3x]
      · by_cases h3 : k2 = k
        · subst h3
          have h2x : ¬ a = k2 := h2
          simp [aupdate, alookup, h1, h2x, ih]
        · simp [aupdate, alookup, h1, h2, h3, ih]

theorem set_time_horizon_steps_ok (st : DTState) (t1 s : Int)
    (h0 : 0 ≤ t1) (h1 : 1 ≤ s) (h2 : t1 + s < (st.size : Int)) :
    set_time_horizon st t1 (some s) none =
      .ok { st with
            t1 := t1, t2 := t1 + s - 1,
            dtindex_custom := pySlice st.dtindex t1 (t1 + s - 1 + 1) } := by
  have hba : pySliceBound st.size t1 = t1.toNat := by
    rw [pySliceBound_nonneg _ _ h0]
    omega
  have hbb : pySliceBound st.size (t1 + s - 1 + 1) = (t1 + s).toNat := by
    rw [pySliceBound_nonneg _ _ (by omega)]
    omega
  have hlen : (pySlice st.dtindex t1 (t1 + s - 1 + 1)).length = s.toNat := by
    rw [dtindex_def, length_pySlice, List.length_range, hba, hbb]
    omega
  have hc0 : pyGet? (pySlice st.dtindex t1 (t1 + s - 1 + 1)) 0 = some t1.toNat := by
    rw [pyGet?_nonneg _ _ (by omega)]
    rw [dtindex_def]
    have := pySlice_range_get st.size t1 (t1 + s - 1 + 1) 0
      (by rw [hba, hbb]; omega)
    rw [hba] at this
    simpa using this
  have hd1 : pyGet? st.dtindex t1 = some t1.toNat := by
    rw [pyGet?_nonneg _ _ h0, dtindex_def]
    exact List.getElem?_range (by omega)
  have hcl : pyGet? (pySlice st.dtindex t1 (t1 + s - 1 + 1)) (-1) =
      some (t1.toNat + (s.toNat - 1)) := by
    rw [pyGet?_neg_one _ (by omega), hlen, dtindex_def]
    have := pySlice_range_get st.size t1 (t1 + s - 1 + 1) (s.toNat - 1)
      (by rw [hba, hbb]; omega)
    rw [hba] at this
    exact this
  have hd2 : pyGet? st.dtindex (t1 + s - 1) = some (t1.toNat + (s.toNat - 1)) := by
    rw [pyGet?_nonneg _ _ (by omega), dtindex_def]
    have := List.getElem?_range (n := st.size) (m := (t1 + s - 1).toNat) (by omega)
    rw [this]
    congr 1
    omega
  simp only [set_time_horizon, get_integer_locations]
  rw [if_pos h2]
  simp only [hc0, hd1, hcl, hd2, if_true, reduceIte]

theorem set_time_horizon_default_end_ok (st : DTState) (t1 : Int)
    (h0 : 0 ≤ t1) (h1 : t1 < (st.size : Int)) :
    set_time_horizon st t1 none none =
      .ok { st with
            t1 := t1, t2 := (st.size : Int) - 1,
            dtindex_custom := pySlice st.dtindex t1 ((st.size : Int) - 1 + 1) } := by
  have hba : pySliceBound st.size t1 = t1.toNat := by
    rw [pySliceBound_nonneg _ _ h0]
    omega
  have hbb : pySliceBound st.size ((st.size : Int) - 1 + 1) = st.size := by
    rw [pySliceBound_nonneg _ _ (by omega)]
    omega
  have hlen : (pySlice st.dtindex t1 ((st.size : Int) - 1 + 1)).length =
      st.size - t1.toNat := by
    rw [dtindex_def, length_pySlice, List.length_range, hba, hbb]
  have hc0 : pyGet? (pySlice st.dtindex t1 ((st.size : Int) - 1 + 1)) 0 =
      some t1.toNat := by
    rw [pyGet?_nonneg _ _ (by omega), dtindex_def]
    have := pySlice_range_get st.size t1 ((st.size : Int) - 1 + 1) 0
      (by rw [hba, hbb]; omega)
    rw [hba] at this
    simpa using this
  have hd1 : pyGet? st.dtindex t1 = some t1.toNat := by
    rw [pyGet?_nonneg _ _ h0, dtindex_def]
    exact List.getElem?_range (by omega)
  have hcl : pyGet? (pySlice st.dtindex t1 ((st.size : Int) - 1 + 1)) (-1) =
      some (t1.toNat + (st.size - t1.toNat - 1)) := by
    rw [pyGet?_neg_one _ (by omega), hlen, dtindex_def]
    have := pySlice_range_get st.size t1 ((st.size : Int) - 1 + 1)
      (st.size - t1.toNat - 1) (by rw [hba, hbb]; omega)
    rw [hba] at this
    exact this
  have hd2 : pyGet? st.dtindex ((st.size : Int) - 1) =
      some (t1.toNat + (st.size - t1.toNat - 1)) := by
    rw [pyGet?_nonneg _ _ (by omega), dtindex_def]
    have := List.getElem?_range (n := st.size) (m := ((st.size : Int) - 1).toNat)
      (by omega)
    rw [this]
    congr 1
    omega
  simp only [set_time_horizon, get_integer_locations]
  simp only [hc0, hd1, hcl, hd2, if_true, reduceIte]

theorem pyGet?_some_lt {α : Type} (l : List α) (i : Int) (x : α)
    (h0 : 0 ≤ i) (h : pyGet? l i = some x) : i < (l.length : Int) := by
  rw [pyGet?_nonneg _ _ h0] at h
  have h2 := (List.getElem?_eq_some.mp h).1
  omega

theorem pyGet?_zero_some_pos {α : Type} (l : List α) (x : α)
    (h : pyGet? l 0 = some x) : 0 < l.length := by
  rw [pyGet?_nonneg _ _ (by omega)] at h
  have h2 := (List.getElem?_eq_some.mp h).1
  omega


theorem set_time_horizon_ok_inv (st : DTState) (start : Int) (steps stop : Option Int)
    (st' : DTState) (t2v : Int)
    (hg : get_integer_locations st start steps stop = .ok (start, t2v))
    (h : set_time_horizon st start steps stop = .ok st') :
    st' = { st with
            t1 := start, t2 := t2v,
            dtindex_custom := pySlice st.dtindex start (t2v + 1) } ∧
    (∃ x, pyGet? (pySlice st.dtindex start (t2v + 1)) 0 = some x ∧
          pyGet? st.dtindex start = some x) ∧
    (∃ y, pyGet? (pySlice st.dtindex start (t2v + 1)) (-1) = some y ∧
          pyGet? st.dtindex t2v = some y) := by
  unfold set_time_horizon at h
  rw [hg] at h
  simp only [] at h
  split at h
  · rename_i c0 d1 heq0 heqd
    split at h
    · rename_i hcd
      split at h
      · rename_i cl d2 heqc heqd2
        split at h
        · rename_i hcd2
          injection h with h2
          subst h2
          refine ⟨rfl, ⟨c0, heq0, ?_⟩, ⟨cl, heqc, ?_⟩⟩
          · rw [heqd, hcd]
          · rw [heqd2, hcd2]
        · exact Except.noConfusion h
      · exact Except.noConfusion h
    · exact Except.noConfusion h
  · exact Except.noConfusion h

/-! Claim theorems. -/

/-- Claim C1 (amended): `set_time_horizon` fails when `steps` pushes the
window past the index length and when both `steps` and `end` are given; when
neither is given it does not fail but resolves `t2` to `len(fullIndex) - 1`;
and in every accepted call with genuine offsets (non-negative `start`/`end`
locations, `steps ≥ 1`) it resolves `(t1, t2)` with
`t1 ≤ t2 < len(fullIndex)`. -/
theorem setWindow_resolution_contract (st : DTState) :
    (∀ t1 s : Int, (st.size : Int) ≤ t1 + s →
        set_time_horizon st t1 (some s) none = .error "Too many steps are given.") ∧
    (∀ t1 s e : Int,
        set_time_horizon st t1 (some s) (some e) =
          .error "One of steps or end must be given.") ∧
    (∀ t1 : Int, ∀ st' : DTState,
        set_time_horizon st t1 none none = .ok st' → st'.t2 = (st.size : Int) - 1) ∧
    (∀ t1 s : Int, ∀ st' : DTState, 0 ≤ t1 → 1 ≤ s →
        set_time_horizon st t1 (some s) none = .ok st' →
        st'.t1 ≤ st'.t2 ∧ st'.t2 < (st.size : Int)) ∧
    (∀ t1 e : Int, ∀ st' : DTState, 0 ≤ t1 → 0 ≤ e →
        set_time_horizon st t1 none (some e) = .ok st' →
        st'.t1 ≤ st'.t2 ∧ st'.t2 < (st.size : Int)) ∧
    (∀ t1 : Int, ∀ st' : DTState, 0 ≤ t1 →
        set_time_horizon st t1 none none = .ok st' →
        st'.t1 ≤ st'.t2 ∧ st'.t2 < (st.size : Int)) := by
  refine ⟨?_, ?_, ?_, ?_, ?_, ?_⟩
  · intro t1 s hle
    simp only [set_time_horizon, get_integer_locations]
    rw [if_neg (by omega)]
  · intro t1 s e
    rfl
  · intro t1 st' h
    obtain ⟨hst', -, -⟩ := set_time_horizon_ok_inv st t1 none none st'
      ((st.size : Int) - 1) rfl h
    rw [hst']
  · intro t1 s st' h0 h1 h
    by_cases hguard : t1 + s < (st.size : Int)
    · have hg : get_integer_locations st t1 (some s) none = .ok (t1, t1 + s - 1) := by
        simp only [get_integer_locations]
        rw [if_pos hguard]
      obtain ⟨hst', -, -⟩ := set_time_horizon_ok_inv st t1 (some s) none st'
        (t1 + s - 1) hg h
      subst hst'
      refine ⟨?_, ?_⟩
      · show t1 ≤ t1 + s - 1
        omega
      · show t1 + s - 1 < (st.size : Int)
        omega
    · have hge : get_integer_locations st t1 (some s) none =
          .error "Too many steps are given." := by
        simp only [get_integer_locations]
        rw [if_neg hguard]
      unfold set_time_horizon at h
      rw [hge] at h
      exact Except.noConfusion h
  · intro t1 e st' h0 he h
    obtain ⟨hst', ⟨x, hx0, hxd⟩, ⟨y, hy0, hyd⟩⟩ :=
      set_time_horizon_ok_inv st t1 none (some e) st' e rfl h
    have ht1 : t1 < (st.size : Int) := by
      have := pyGet?_some_lt st.dtindex t1 x h0 hxd
      rw [dtindex_def, List.length_range] at this
      exact this
    have hte : e < (st.size : Int) := by
      have := pyGet?_some_lt st.dtindex e y he hyd
      rw [dtindex_def, List.length_range] at this
      exact this
    have hpos := pyGet?_zero_some_pos _ _ hx0
    rw [length_pySlice, dtindex_def, List.length_range,
        pySliceBound_nonneg st.size t1 h0,
        pySliceBound_nonneg st.size (e + 1) (by omega)] at hpos
    subst hst'
    refine ⟨?_, ?_⟩
    · show t1 ≤ e
      omega
    · show e < (st.size : Int)
      exact hte
  · intro t1 st' h0 h
    obtain ⟨hst', ⟨x, hx0, hxd⟩, -⟩ :=
      set_time_horizon_ok_inv st t1 none none st' ((st.size : Int) - 1) rfl h
    have ht1 : t1 < (st.size : Int) := by
      have := pyGet?_some_lt st.dtindex t1 x h0 hxd
      rw [dtindex_def, List.length_range] at this
      exact this
    subst hst'
    refine ⟨?_, ?_⟩
    · show t1 ≤ (st.size : Int) - 1
      omega
    · show (st.size : Int) - 1 < (st.size : Int)
      omega

theorem setWindow_resolution_contract_witness :
    set_time_horizon dtW 0 (some 20) none = .error "Too many steps are given." ∧
    set_time_horizon dtW 0 (some 3) (some 5) =
      .error "One of steps or end must be given." ∧
    dtW3.t2 = (dtW.size : Int) - 1 ∧
    (dtW4.t1 ≤ dtW4.t2 ∧ dtW4.t2 < (dtW.size : Int)) ∧
    (dtW5.t1 ≤ dtW5.t2 ∧ dtW5.t2 < (dtW.size : Int)) ∧
    (dtW3.t1 ≤ dtW3.t2 ∧ dtW3.t2 < (dtW.size : Int)) :=
  ⟨(setWindow_resolution_contract dtW).1 0 20 (by decide),
   (setWindow_resolution_contract dtW).2.1 0 3 5,
   (setWindow_resolution_contract dtW).2.2.1 2 dtW3 (by rfl),
   (setWindow_resolution_contract dtW).2.2.2.1 2 3 dtW4 (by decide) (by decide)
     (by rfl),
   (setWindow_resolution_contract dtW).2.2.2.2.1 1 6 dtW5 (by decide) (by decide)
     (by rfl),
   (setWindow_resolution_contract dtW).2.2.2.2.2 2 dtW3 (by decide) (by rfl)⟩

/-- Claim C1 counterexample: on the index of `CaseStudy(year=2019,
freq="60min")` (8760 steps), calling `set_time_horizon(start=5)` with
neither `steps` nor `end` does not fail: it succeeds and resolves `t2` to
the final location 8759, refuting "fails ... when neither `steps` nor `end`
is given". -/
theorem setWindow_no_steps_no_end_succeeds :
    ∃ st', set_time_horizon dtAfterInit 5 none none = .ok st' ∧ st'.t2 = 8759 := by
  refine ⟨_, set_time_horizon_default_end_ok dtAfterInit 5 (by decide) (by decide), ?_⟩
  decide

/-- Claim C6: for every `(start, steps)` pair accepted by
`set_time_horizon`, afterwards the custom index is exactly the slice
`fullIndex[t1 : t2+1]`, its element 0 equals `fullIndex[t1]` and its element
-1 equals `fullIndex[t2]`. -/
theorem setWindow_custom_matches_window (st : DTState) (start steps : Int)
    (st' : DTState) (h : set_time_horizon st start (some steps) none = .ok st') :
    st'.dtindex_custom = pySlice st.dtindex st'.t1 (st'.t2 + 1) ∧
    (∃ x, pyGet? st'.dtindex_custom 0 = some x ∧
          pyGet? st.dtindex st'.t1 = some x) ∧
    (∃ y, pyGet? st'.dtindex_custom (-1) = some y ∧
          pyGet? st.dtindex st'.t2 = some y) := by
  by_cases hguard : start + steps < (st.size : Int)
  · have hg : get_integer_locations st start (some steps) none =
        .ok (start, start + steps - 1) := by
      simp only [get_integer_locations]
      rw [if_pos hguard]
    obtain ⟨hst', hx, hy⟩ :=
      set_time_horizon_ok_inv st start (some steps) none st' (start + steps - 1) hg h
    subst hst'
    exact ⟨rfl, hx, hy⟩
  · have hge : get_integer_locations st start (some steps) none =
        .error "Too many steps are given." := by
      simp only [get_integer_locations]
      rw [if_neg hguard]
    unfold set_time_horizon at h
    rw [hge] at h
    exact Except.noConfusion h

theorem setWindow_custom_matches_window_witness :
    dtW4.dtindex_custom = pySlice dtW.dtindex dtW4.t1 (dtW4.t2 + 1) ∧
    (∃ x, pyGet? dtW4.dtindex_custom 0 = some x ∧
          pyGet? dtW.dtindex dtW4.t1 = some x) ∧
    (∃ y, pyGet? dtW4.dtindex_custom (-1) = some y ∧
          pyGet? dtW.dtindex dtW4.t2 = some y) :=
  setWindow_custom_matches_window dtW 2 3 dtW4 (by rfl)

/-- Claim C10: with `steps` given and `end` absent, `set_time_horizon`
requires `t1 + steps < len(fullIndex)` strictly, so `t1 + steps =
len(fullIndex)` is rejected; every window accepted through `steps` has
`t2 ≤ len(fullIndex) - 2`, and `t2 = len(fullIndex) - 2` is reachable. -/
theorem setWindow_steps_strict (st : DTState) (t1 s : Int) :
    ((st.size : Int) = t1 + s →
        set_time_horizon st t1 (some s) none = .error "Too many steps are given.") ∧
    (∀ st' : DTState, set_time_horizon st t1 (some s) none = .ok st' →
        st'.t2 ≤ (st.size : Int) - 2) ∧
    (2 ≤ st.size → t1 = 0 → s = (st.size : Int) - 1 →
        ∃ st', set_time_horizon st t1 (some s) none = .ok st' ∧
               st'.t2 = (st.size : Int) - 2) := by
  refine ⟨?_, ?_, ?_⟩
  · intro heq
    simp only [set_time_horizon, get_integer_locations]
    rw [if_neg (by omega)]
  · intro st' h
    by_cases hguard : t1 + s < (st.size : Int)
    · have hg : get_integer_locations st t1 (some s) none =
          .ok (t1, t1 + s - 1) := by
        simp only [get_integer_locations]
        rw [if_pos hguard]
      obtain ⟨hst', -, -⟩ :=
        set_time_horizon_ok_inv st t1 (some s) none st' (t1 + s - 1) hg h
      subst hst'
      show t1 + s - 1 ≤ (st.size : Int) - 2
      omega
    · have hge : get_integer_locations st t1 (some s) none =
          .error "Too many steps are given." := by
        simp only [get_integer_locations]
        rw [if_neg hguard]
      unfold set_time_horizon at h
      rw [hge] at h
      exact Except.noConfusion h
  · intro hsz ht1 hs
    subst ht1
    subst hs
    refine ⟨_, set_time_horizon_steps_ok st 0 ((st.size : Int) - 1) (by omega)
      (by omega) (by omega), ?_⟩
    show (0 : Int) + ((st.size : Int) - 1) - 1 = (st.size : Int) - 2
    omega

theorem setWindow_steps_strict_witness :
    set_time_horizon dtW 4 (some 6) none = .error "Too many steps are given." ∧
    dtW4.t2 ≤ (dtW.size : Int) - 2 ∧
    (∃ st', set_time_horizon dtW 0 (some 9) none = .ok st' ∧
            st'.t2 = (dtW.size : Int) - 2) :=
  ⟨(setWindow_steps_strict dtW 4 6).1 (by decide),
   (setWindow_steps_strict dtW 2 3).2.1 dtW4 (by rfl),
   (setWindow_steps_strict dtW 0 9).2.2 (by decide) (by decide) (by decide)⟩

/-- Claim C5 (code-bug evaluation): on the 8760-step index of
`CaseStudy(year=2019, freq="60min")` with `t1 = 0`, a rolling horizon of
10000 hours exceeds the data, takes the warning branch ("using full year"),
but sets `t2 = 8758`, not the full remaining range `len(fullIndex) - 1 =
8759`: the clamping `steps_ahead = size - 1` followed by `t2 = t1 +
steps_ahead - 1` drops the final time step. -/
theorem rollingHorizon_overflow_drops_final_step :
    (set_rolling_horizon dtAfterInit 10000).2 = true ∧
    (set_rolling_horizon dtAfterInit 10000).1.t2 = 8758 ∧
    ¬ (set_rolling_horizon dtAfterInit 10000).1.t2 = (dtAfterInit.size : Int) - 1 := by
  refine ⟨by decide, by decide, by decide⟩

/-- Claim C7: `set_rolling_horizon` is idempotent: a second application with
the same hours argument (note it never modifies `t1`) returns the same `t2`,
the same custom index, and the same warning flag. -/
theorem rollingHorizon_idempotent (st : DTState) (h : Nat) :
    set_rolling_horizon (set_rolling_horizon st h).1 h = set_rolling_horizon st h :=
  rfl

theorem rollingHorizon_idempotent_witness :
    set_rolling_horizon (set_rolling_horizon dtW 24).1 24 = set_rolling_horizon dtW 24 :=
  rollingHorizon_idempotent dtW 24

/-- Claim C8: for any valid year, `CaseStudy.__init__` accepts exactly the
frequencies of the enumerated set {1, 5, 15, 30, 60} minutes; any other
`freq` makes construction fail (the assert fires first, so no state is set
up — the error case carries no `CaseStudy`). -/
theorem init_accepts_exactly_valid_freqs (name : String) (year : Nat) (freq : String)
    (country : String) (ci : Bool) (doc : String) (ov : List String) (ml : String)
    (hy1 : 1980 ≤ year) (hy2 : year < 2100) :
    isOkE (CaseStudy.init name year freq country ci doc ov ml) = true ↔
      freq ∈ valid_freqs := by
  by_cases hf : freq ∈ valid_freqs
  · have hdt : set_dtindex year freq =
        .ok { year := year, freq := freq, size := periodsInYear year freq, t1 := 0,
              t2 := (periodsInYear year freq : Int) - 1,
              dtindex_custom := List.range (periodsInYear year freq) } := by
      simp only [set_dtindex]
      rw [if_neg (fun hn => hn ⟨hy1, hy2⟩), if_neg (fun hn => hn hf)]
    simp only [CaseStudy.init]
    rw [if_neg (fun hn => hn hf), hdt]
    simp [isOkE, hf]
  · simp only [CaseStudy.init]
    rw [if_pos hf]
    simp [isOkE, hf]

theorem init_accepts_exactly_valid_freqs_witness :
    1980 ≤ 2019 ∧
    (isOkE (CaseStudy.init "test" 2019 "60min" "DE" false "No doc available."
        ["C_TOT_", "CE_TOT_"] "gp") = true ↔ "60min" ∈ valid_freqs) :=
  ⟨by decide,
   init_accepts_exactly_valid_freqs "test" 2019 "60min" "DE" false
     "No doc available." ["C_TOT_", "CE_TOT_"] "gp" (by decide) (by decide)⟩

theorem add_scen_derive_eq (cs : CaseStudy) (b id nm dc : String) (base : Scenario)
    (hb : alookup cs.scens b = some base) (hid : alookup cs.scens id = none) :
    add_scen cs (some id) nm dc (some b) none =
      .ok { cs with scens := aupdate cs.scens b (clearIfSolved base) ++
                             [(id, deriveCopy base id nm dc)] } := by
  have h1 : alookup (aupdate cs.scens b (clearIfSolved base)) id = none := by
    rw [alookup_aupdate]
    by_cases h : id = b
    · subst h
      rw [hid] at hb
      exact Option.noConfusion hb
    · rw [if_neg h]
      exact hid
  simp only [add_scen]
  rw [hb]
  simp only [scensAdd]
  rw [h1]

/-- Claim C2: deriving a scenario via `add_scen` from a base carrying solved
results yields a new scenario whose collectors are all empty and that has no
`res`, while the base scenario's own `res` is unchanged by the
derivation. -/
theorem derived_scenario_fresh (cs : CaseStudy) (b id nm dc : String) (base : Scenario)
    (hb : alookup cs.scens b = some base) (hres : base.res.isSome = true)
    (hid : alookup cs.scens id = none) :
    ∃ cs', add_scen cs (some id) nm dc (some b) none = .ok cs' ∧
      (∃ sc, alookup cs'.scens id = some sc ∧ sc.res = none ∧
        ∀ p ∈ sc.collectors, p.2 = ([] : List (String × Nat))) ∧
      (∃ base2, alookup cs'.scens b = some base2 ∧ base2.res = base.res) := by
  have hupdnone : alookup (aupdate cs.scens b (clearIfSolved base)) id = none := by
    rw [alookup_aupdate]
    by_cases h : id = b
    · subst h
      rw [hid] at hb
      exact Option.noConfusion hb
    · rw [if_neg h]
      exact hid
  refine ⟨_, add_scen_derive_eq cs b id nm dc base hb hid, ?_, ?_⟩
  · refine ⟨deriveCopy base id nm dc, ?_, ?_, ?_⟩
    · show alookup (aupdate cs.scens b (clearIfSolved base) ++
        [(id, deriveCopy base id nm dc)]) id = some (deriveCopy base id nm dc)
      rw [alookup_append, hupdnone]
      simp [alookup]
    · simp [deriveCopy, clearIfSolved, Scenario.clearAllCollectors, hres]
    · intro p hp
      simp only [deriveCopy, clearIfSolved, Scenario.clearAllCollectors, hres,
        if_true] at hp
      obtain ⟨q, hq, hpq⟩ := List.mem_map.mp hp
      rw [← hpq]
  · refine ⟨clearIfSolved base, ?_, ?_⟩
    · show alookup (aupdate cs.scens b (clearIfSolved base) ++
        [(id, deriveCopy base id nm dc)]) b = some (clearIfSolved base)
      have h2 : alookup (aupdate cs.scens b (clearIfSolved base)) b =
          some (clearIfSolved base) := by
        rw [alookup_aupdate, if_pos rfl, hb]
        rfl
      rw [alookup_append, h2]
    · simp [clearIfSolved, Scenario.clearAllCollectors, hres]

theorem derived_scenario_fresh_witness :
    ∃ cs', add_scen solvedCS (some "sc1") "new" "doc" (some "REF") none = .ok cs' ∧
      (∃ sc, alookup cs'.scens "sc1" = some sc ∧ sc.res = none ∧
        ∀ p ∈ sc.collectors, p.2 = ([] : List (String × Nat))) ∧
      (∃ base2, alookup cs'.scens "REF" = some base2 ∧
        base2.res = refScenSolved.res) :=
  derived_scenario_fresh solvedCS "REF" "sc1" "new" "doc" refScenSolved
    (by decide) (by decide) (by decide)

/-- Claim C9 (frame effect): deriving a scenario from an already-solved base
mutates the base scenario itself: `add_scen` clears every collector of the
base before copying, so after derivation the stored base has only empty
collectors even though its `res` is kept. -/
theorem derivation_clears_base_collectors (cs : CaseStudy) (b id nm dc : String)
    (base : Scenario) (hb : alookup cs.scens b = some base)
    (hres : base.res.isSome = true) (hid : alookup cs.scens id = none) :
    ∃ cs', add_scen cs (some id) nm dc (some b) none = .ok cs' ∧
      ∃ base2, alookup cs'.scens b = some base2 ∧
        (∀ p ∈ base2.collectors, p.2 = ([] : List (String × Nat))) ∧
        base2.res = base.res ∧ base2.res.isSome = true := by
  refine ⟨_, add_scen_derive_eq cs b id nm dc base hb hid, clearIfSolved base, ?_, ?_, ?_, ?_⟩
  · show alookup (aupdate cs.scens b (clearIfSolved base) ++
      [(id, deriveCopy base id nm dc)]) b = some (clearIfSolved base)
    have h2 : alookup (aupdate cs.scens b (clearIfSolved base)) b =
        some (clearIfSolved base) := by
      rw [alookup_aupdate, if_pos rfl, hb]
      rfl
    rw [alookup_append, h2]
  · intro p hp
    simp only [clearIfSolved, Scenario.clearAllCollectors, hres, if_true] at hp
    obtain ⟨q, hq, hpq⟩ := List.mem_map.mp hp
    rw [← hpq]
  · simp [clearIfSolved, Scenario.clearAllCollectors, hres]
  · simp [clearIfSolved, Scenario.clearAllCollectors, hres]

theorem derivation_clears_base_collectors_witness :
    ∃ cs', add_scen solvedCS (some "sc1") "new" "doc" (some "REF") none = .ok cs' ∧
      ∃ base2, alookup cs'.scens "REF" = some base2 ∧
        (∀ p ∈ base2.collectors, p.2 = ([] : List (String × Nat))) ∧
        base2.res = refScenSolved.res ∧ base2.res.isSome = true :=
  derivation_clears_base_collectors solvedCS "REF" "sc1" "new" "doc" refScenSolved
    (by decide) (by decide) (by decide)

/-- Claim C3: `add_scen` fails with the duplicate-id error whenever the
given id is already present in the scenario store — in both the from-scratch
branch and the derivation branch — and on failure no new store is produced,
so the existing scenario stays in place. -/
theorem addScen_duplicate_id_fails (cs : CaseStudy) (id nm dc : String)
    (hdup : (alookup cs.scens id).isSome = true) :
    (∀ built : Option Scenario,
        add_scen cs (some id) nm dc none built = .error "DuplicateIdError") ∧
    (∀ b : String, ∀ base : Scenario, alookup cs.scens b = some base →
        add_scen cs (some id) nm dc (some b) none = .error "DuplicateIdError") := by
  obtain ⟨sc0, hsc0⟩ := Option.isSome_iff_exists.mp hdup
  constructor
  · intro built
    cases built with
    | none =>
      simp only [add_scen, scensAdd]
      rw [hsc0]
    | some bsc =>
      simp only [add_scen, scensAdd]
      rw [hsc0]
  · intro b base hb
    have h1 : ∃ v, alookup (aupdate cs.scens b (clearIfSolved base)) id = some v := by
      rw [alookup_aupdate]
      by_cases h : id = b
      · subst h
        rw [hb, if_pos rfl]
        exact ⟨_, rfl⟩
      · rw [if_neg h]
        exact ⟨sc0, hsc0⟩
    obtain ⟨v, hv⟩ := h1
    simp only [add_scen]
    rw [hb]
    simp only [scensAdd]
    rw [hv]

theorem addScen_duplicate_id_fails_witness :
    add_scen solvedCS (some "REF") "dup" "doc" none none = .error "DuplicateIdError" ∧
    add_scen solvedCS (some "REF") "dup" "doc" (some "REF") none =
      .error "DuplicateIdError" :=
  ⟨(addScen_duplicate_id_fails solvedCS "REF" "dup" "doc" (by decide)).1 none,
   (addScen_duplicate_id_fails solvedCS "REF" "dup" "doc" (by decide)).2 "REF"
     refScenSolved (by decide)⟩

/-- Claim C4 counterexample: for `scen_vars = [("X","x",[1,2]),
("Y","y",[10,20])]`, the stored sweep table `scen_df` (the transpose
`df.T`) has exactly 2 rows — labelled `X` and `Y` — not 4, and its column
labels are the 4 generated scenario ids, not `X` and `Y`; this refutes the
claimed "4 rows whose columns X and Y". -/
theorem sweep_scen_df_is_transposed :
    (add_scens sweepCS sweepVars false "REF").map
        (fun cs => cs.scen_df.map (fun t => (t.index.length, t.index, t.columns))) =
      .ok (some (2, ["X", "Y"], ["x1_y10", "x1_y20", "x2_y10", "x2_y20"])) ∧
    (2 : Nat) ≠ 4 := by
  exact ⟨rfl, by decide⟩

/-- Claim C4 (amended): `add_scens` with `scen_vars = [("X","x",[1,2]),
("Y","y",[10,20])]` produces exactly 4 new scenarios with pairwise distinct
ids, and sets `scen_df` to the transposed sweep table: rows labelled `X` and
`Y`, one column per generated scenario, whose columns cover every
(value-of-X, value-of-Y) combination exactly once. -/
theorem sweep_produces_full_grid :
    (add_scens sweepCS sweepVars false "REF").map (fun cs =>
        (cs.scens.map Prod.fst,
         cs.scen_df.map (fun t => (t.index, t.columns, t.data.transpose)))) =
      .ok (["REF", "x1_y10", "x1_y20", "x2_y10", "x2_y20"],
           some (["X", "Y"],
                 ["x1_y10", "x1_y20", "x2_y10", "x2_y20"],
                 [[PVal.i 1, PVal.i 10], [PVal.i 1, PVal.i 20],
                  [PVal.i 2, PVal.i 10], [PVal.i 2, PVal.i 20]])) ∧
    (["REF", "x1_y10", "x1_y20", "x2_y10", "x2_y20"] : List String).Nodup ∧
    (∀ a ∈ [PVal.i 1, PVal.i 2], ∀ b ∈ [PVal.i 10, PVal.i 20],
      ([[PVal.i 1, PVal.i 10], [PVal.i 1, PVal.i 20], [PVal.i 2, PVal.i 10],
        [PVal.i 2, PVal.i 20]].count [a, b]) = 1) := by
  refine ⟨rfl, by decide, by decide⟩
